import Mathlib

/-!
Verification of the guitar-pedalboard audio engine.

This file gives a shallow embedding of the `AudioEngine` class (the
signal-processing core of the repository): its scalar DSP parameters, its
lifecycle/transport state, and its public operations `initialize`, `play`,
`stop`, `switchSource`, `togglePedal`, `updatePedalAmount`, plus the pure
distortion-curve synthesizer `makeDistortionCurve`.

Modelling conventions:
- JS numbers on the control path are modelled as rationals (ℚ), so states are
  computable and facts about concrete runs can be settled by `decide`/`rfl`.
- The distortion curve involves `Math.PI`, so it is modelled over ℝ.
- Web Audio node objects are replaced by the scalar parameters the code sets
  on them (gain values, compressor parameters, LFO rate, delay times, and the
  arguments of the last `makeDistortionCurve` call installed on a shaper).
- Three instrumentation (history) fields are added to the engine state to
  express counting properties: `loads` (completed buffer loads per source),
  `graphsBuilt` (number of `buildEffectChain` runs) and `liveVoices`
  (buffer-source nodes started and not yet stopped). They are written exactly
  where the corresponding effect happens in the source and read nowhere else.
- Fetch/decode of the three assets is an oracle `decode : AudioSource → Bool`
  saying whether decoding the bytes of that source succeeds.
- `async` suspension points matter only for `initialize`; it is split into
  `initStart` (the synchronous prefix up to the first await: the
  `isInitialized` guard and AudioContext creation) and `initFinish` (the rest:
  the three loads, chain construction, setting `isInitialized`), with
  `engineInit` their sequential composition (one uninterrupted call).
-/

namespace Pedalboard

/-- Source identifiers: `type AudioSource = "a" | "b" | "c"`. -/
inductive AudioSource
  | a | b | c
deriving DecidableEq, Fintype

/-- Pedal identifiers: `type PedalId = "cmp" | "od" | "ds" | "ch" | "dl" | "rv"`. -/
inductive PedalId
  | cmp | od | ds | ch | dl | rv
deriving DecidableEq, Fintype

/-- The `type` argument of `makeDistortionCurve`: `"od"` (soft) or `"ds"` (hard). -/
inductive DistType
  | od | ds
deriving DecidableEq

/-- The scalar parameters of the `EffectNodes` record of the source, one field
per parameter the code ever sets.  A wave-shaper's installed curve is
represented by the arguments of the `makeDistortionCurve` call that produced
it (the curve is a pure function of those arguments). -/
structure EffectNodes where
  compressorThreshold : ℚ
  compressorKnee : ℚ
  compressorRatio : ℚ
  compressorAttack : ℚ
  compressorRelease : ℚ
  cmpMix : ℚ
  cmpDry : ℚ
  odShaperCurve : ℚ × DistType
  odMix : ℚ
  odDry : ℚ
  dsShaperCurve : ℚ × DistType
  dsMix : ℚ
  dsDry : ℚ
  chorusDelayTime : ℚ
  chorusLfoFreq : ℚ
  chorusLfoGain : ℚ
  chorusMix : ℚ
  chorusDry : ℚ
  delayTime : ℚ
  delayFeedback : ℚ
  delayMix : ℚ
  delayDry : ℚ
  reverbMix : ℚ
  reverbDry : ℚ
  inputGain : ℚ
  masterGain : ℚ
deriving DecidableEq

/-- The node parameters as `buildEffectChain` creates them (source lines
470-561): master 0.7, input 1, compressor -24/30/12/0.003/0.25, every mix
gain 0, every dry gain 1, overdrive curve `makeDistortionCurve(0.3, "od")`,
distortion curve `makeDistortionCurve(0.5, "ds")`, chorus delay 0.03 s,
LFO 0.5 Hz with gain 0.002, delay 0.4 s with feedback 0.3. -/
def initialEffectNodes : EffectNodes where
  compressorThreshold := -24
  compressorKnee := 30
  compressorRatio := 12
  compressorAttack := 0.003
  compressorRelease := 0.25
  cmpMix := 0
  cmpDry := 1
  odShaperCurve := (0.3, DistType.od)
  odMix := 0
  odDry := 1
  dsShaperCurve := (0.5, DistType.ds)
  dsMix := 0
  dsDry := 1
  chorusDelayTime := 0.03
  chorusLfoFreq := 0.5
  chorusLfoGain := 0.002
  chorusMix := 0
  chorusDry := 1
  delayTime := 0.4
  delayFeedback := 0.3
  delayMix := 0
  delayDry := 1
  reverbMix := 0
  reverbDry := 1
  inputGain := 1
  masterGain := 0.7

/-- Effect of `togglePedal`'s `switch` statement on the node parameters
(source lines 735-766). -/
def togglePedalNodes (pedalId : PedalId) (enabled : Bool) (amount : ℚ)
    (n : EffectNodes) : EffectNodes :=
  let normalizedAmount := amount / 100
  match pedalId with
  | PedalId.cmp =>
      { n with cmpMix := if enabled then 1 else 0,
               cmpDry := if enabled then 0 else 1 }
  | PedalId.od =>
      { n with odMix := if enabled then normalizedAmount else 0,
               odDry := if enabled then 1 - normalizedAmount * 0.5 else 1 }
  | PedalId.ds =>
      { n with dsMix := if enabled then normalizedAmount else 0,
               dsDry := if enabled then 1 - normalizedAmount * 0.5 else 1 }
  | PedalId.ch =>
      { n with chorusMix := if enabled then normalizedAmount * 0.7 else 0 }
  | PedalId.dl =>
      { n with delayMix := if enabled then normalizedAmount * 0.5 else 0,
               delayFeedback := if enabled then normalizedAmount * 0.4 else 0 }
  | PedalId.rv =>
      { n with reverbMix := if enabled then normalizedAmount * 0.6 else 0 }

/-- Effect of `updatePedalAmount`'s `switch` statement on the node parameters
(source lines 781-818); only reached when `enabled` is true. -/
def updatePedalAmountNodes (pedalId : PedalId) (amount : ℚ)
    (n : EffectNodes) : EffectNodes :=
  let normalizedAmount := amount / 100
  match pedalId with
  | PedalId.cmp =>
      { n with compressorThreshold := -50 + normalizedAmount * 26,
               compressorRatio := 1 + normalizedAmount * 19 }
  | PedalId.od =>
      { n with odMix := normalizedAmount,
               odDry := 1 - normalizedAmount * 0.5,
               odShaperCurve := (normalizedAmount * 0.6, DistType.od) }
  | PedalId.ds =>
      { n with dsMix := normalizedAmount,
               dsDry := 1 - normalizedAmount * 0.5,
               dsShaperCurve := (normalizedAmount, DistType.ds) }
  | PedalId.ch =>
      { n with chorusMix := normalizedAmount * 0.7,
               chorusLfoFreq := 0.3 + normalizedAmount * 2 }
  | PedalId.dl =>
      { n with delayMix := normalizedAmount * 0.5,
               delayFeedback := normalizedAmount * 0.4,
               delayTime := 0.2 + normalizedAmount * 0.4 }
  | PedalId.rv =>
      { n with reverbMix := normalizedAmount * 0.6 }

/-- The wet (mix) gain of a stage, as a projection of the node parameters. -/
def wetGain : PedalId → EffectNodes → ℚ
  | PedalId.cmp, n => n.cmpMix
  | PedalId.od, n => n.odMix
  | PedalId.ds, n => n.dsMix
  | PedalId.ch, n => n.chorusMix
  | PedalId.dl, n => n.delayMix
  | PedalId.rv, n => n.reverbMix

/-- The dry gain of a stage, as a projection of the node parameters. -/
def dryGain : PedalId → EffectNodes → ℚ
  | PedalId.cmp, n => n.cmpDry
  | PedalId.od, n => n.odDry
  | PedalId.ds, n => n.dsDry
  | PedalId.ch, n => n.chorusDry
  | PedalId.dl, n => n.delayDry
  | PedalId.rv, n => n.reverbDry

/-- Modelled from the spec: the §4.3 table's wet gain for an enabled stage
with amount `a` (0..100 scale).  Written from the spec's words, to be
compared with the behaviour embedded from the source. -/
def specEnabledWet : PedalId → ℚ → ℚ
  | PedalId.cmp, _ => 1
  | PedalId.od, a => a / 100
  | PedalId.ds, a => a / 100
  | PedalId.ch, a => 0.7 * (a / 100)
  | PedalId.dl, a => 0.5 * (a / 100)
  | PedalId.rv, a => 0.6 * (a / 100)

/-- Modelled from the spec: the §4.3 table's dry gain for an enabled stage
with amount `a` (0..100 scale). -/
def specEnabledDry : PedalId → ℚ → ℚ
  | PedalId.cmp, _ => 0
  | PedalId.od, a => 1 - 0.5 * (a / 100)
  | PedalId.ds, a => 1 - 0.5 * (a / 100)
  | PedalId.ch, _ => 1
  | PedalId.dl, _ => 1
  | PedalId.rv, _ => 1

/-- Status of the `AudioBufferSourceNode` currently referenced by the
`sourceNode` field: started and still running, or already stopped. -/
inductive VoiceStatus
  | live | stopped
deriving DecidableEq

/-- The errors the engine can throw, by site: `notInitialized` for the
"AudioContext not initialized" / "AudioEngine not initialized" throws,
`decodeError` for a failed fetch/decode in `loadAudioBuffer`,
`bufferNotLoaded` for the "Audio buffer not loaded" throw in `play`. -/
inductive EngineError
  | notInitialized | decodeError | bufferNotLoaded
deriving DecidableEq

/-- The mutable fields of the `AudioEngine` singleton, plus the three
instrumentation counters described in the header.  `hasContext` stands for
`audioContext !== null`, `nodes` for `effectNodes`, `buffers s` for
`audioBuffers.has(s)`, `sourceNode` for the buffer-source-node reference. -/
structure Engine where
  hasContext : Bool
  buffers : AudioSource → Bool
  loads : AudioSource → ℕ
  graphsBuilt : ℕ
  nodes : Option EffectNodes
  sourceNode : Option VoiceStatus
  liveVoices : ℕ
  currentSource : AudioSource
  isPlaying : Bool
  isInitialized : Bool

/-- A freshly constructed engine (the field initializers of the class). -/
def freshEngine : Engine where
  hasContext := false
  buffers := fun _ => false
  loads := fun _ => 0
  graphsBuilt := 0
  nodes := none
  sourceNode := none
  liveVoices := 0
  currentSource := AudioSource.a
  isPlaying := false
  isInitialized := false

/-- `loadAudioBuffer` (source lines 443-458): throws if there is no
AudioContext; otherwise fetches and decodes `clean-{source}.wav`.  On
success the decoded buffer is inserted into the cache; on failure the error
is logged and rethrown. -/
def loadAudioBuffer (decode : AudioSource → Bool) (s : AudioSource)
    (e : Engine) : Engine × Option EngineError :=
  if e.hasContext = false then (e, some EngineError.notInitialized)
  else if decode s then
    ({ e with buffers := Function.update e.buffers s true,
              loads := Function.update e.loads s (e.loads s + 1) }, none)
  else (e, some EngineError.decodeError)

/-- `buildEffectChain` (source lines 463-637): throws without an
AudioContext; otherwise creates all nodes with their initial parameters and
wires the fixed chain.  The instrumentation counter `graphsBuilt` records one
construction. -/
def buildEffectChain (e : Engine) : Engine × Option EngineError :=
  if e.hasContext = false then (e, some EngineError.notInitialized)
  else ({ e with nodes := some initialEffectNodes,
                 graphsBuilt := e.graphsBuilt + 1 }, none)

/-- The synchronous prefix of `initialize` (source lines 414-421): the
`isInitialized` early return, then AudioContext creation.  The returned flag
says whether this call proceeds past the guard. -/
def initStart (e : Engine) : Engine × Bool :=
  if e.isInitialized then (e, false)
  else ({ e with hasContext := true }, true)

/-- The rest of `initialize` (source lines 423-437): the three buffer loads
(`Promise.all` — all three run; the combined promise rejects if any one
rejects), then `buildEffectChain`, then `isInitialized = true`.  On any
failure the error is logged and rethrown, leaving `isInitialized` false. -/
def initFinish (decode : AudioSource → Bool) (e : Engine) :
    Engine × Option EngineError :=
  let ra := loadAudioBuffer decode AudioSource.a e
  let rb := loadAudioBuffer decode AudioSource.b ra.1
  let rc := loadAudioBuffer decode AudioSource.c rb.1
  match ra.2, rb.2, rc.2 with
  | none, none, none =>
      let rg := buildEffectChain rc.1
      match rg.2 with
      | none => ({ rg.1 with isInitialized := true }, none)
      | some err => (rg.1, some err)
  | some err, _, _ => (rc.1, some err)
  | none, some err, _ => (rc.1, some err)
  | none, none, some err => (rc.1, some err)

/-- One uninterrupted `initialize()` call: the synchronous prefix followed by
the awaited remainder. -/
def engineInit (decode : AudioSource → Bool) (e : Engine) :
    Engine × Option EngineError :=
  let r := initStart e
  if r.2 then initFinish decode r.1 else (r.1, none)

/-- The `sourceNode.stop(); sourceNode.disconnect()` block shared by `play`
and `stop`: stopping an already-stopped node throws and is swallowed by the
surrounding try/catch, so only a live node changes status. -/
def stopCurrentNode (e : Engine) : Engine :=
  match e.sourceNode with
  | some VoiceStatus.live =>
      { e with liveVoices := e.liveVoices - 1,
               sourceNode := some VoiceStatus.stopped }
  | _ => e

/-- The tail of `play` (source lines 661-684): stop any existing source node,
look up the current source's buffer (throwing "Audio buffer not loaded" if it
is absent), then create, connect and start a new looping source node. -/
def startVoice (e : Engine) : Engine × Option EngineError :=
  let e1 := stopCurrentNode e
  if e1.buffers e1.currentSource then
    ({ e1 with sourceNode := some VoiceStatus.live,
               liveVoices := e1.liveVoices + 1,
               isPlaying := true }, none)
  else (e1, some EngineError.bufferNotLoaded)

/-- `play` (source lines 642-685): initialize first if needed (propagating
its error), throw if still without context or nodes, return early when
already playing with a live reference, otherwise restart the voice. -/
def play (decode : AudioSource → Bool) (e : Engine) :
    Engine × Option EngineError :=
  let r := if e.isInitialized then (e, none) else engineInit decode e
  match r.2 with
  | some err => (r.1, some err)
  | none =>
      if r.1.hasContext = false ∨ r.1.nodes = none then
        (r.1, some EngineError.notInitialized)
      else if r.1.isPlaying = true ∧ r.1.sourceNode ≠ none then (r.1, none)
      else startVoice r.1

/-- `stop` (source lines 690-704): no-op without a source node reference;
otherwise stop/disconnect it (benign if already stopped), drop the reference
and clear `isPlaying`. -/
def stop (e : Engine) : Engine :=
  match e.sourceNode with
  | none => e
  | some _ =>
      let e1 := stopCurrentNode e
      { e1 with sourceNode := none, isPlaying := false }

/-- `switchSource` (source lines 709-725): no-op for the current source;
otherwise record the new source, remember whether it was playing, stop, and
restart playback if it was playing. -/
def switchSource (decode : AudioSource → Bool) (s : AudioSource)
    (e : Engine) : Engine × Option EngineError :=
  if s = e.currentSource then (e, none)
  else
    let e1 := { e with currentSource := s }
    let wasPlaying := e1.isPlaying
    let e2 := stop e1
    if wasPlaying then play decode e2 else (e2, none)

/-- `togglePedal` (source lines 730-767): silently return without nodes or
context, otherwise apply the per-pedal `switch`. -/
def togglePedal (pedalId : PedalId) (enabled : Bool) (amount : ℚ)
    (e : Engine) : Engine :=
  match e.nodes, e.hasContext with
  | some n, true =>
      { e with nodes := some (togglePedalNodes pedalId enabled amount n) }
  | _, _ => e

/-- `updatePedalAmount` (source lines 772-819): silently return without nodes
or context, silently return when `enabled` is false, otherwise apply the
per-pedal `switch`. -/
def updatePedalAmount (pedalId : PedalId) (amount : ℚ) (enabled : Bool)
    (e : Engine) : Engine :=
  match e.nodes, e.hasContext with
  | some n, true =>
      if enabled then
        { e with nodes := some (updatePedalAmountNodes pedalId amount n) }
      else e
  | _, _ => e

/-- A decode oracle under which every source's bytes decode. -/
def decodeOk : AudioSource → Bool := fun _ => true

/-- A decode oracle under which exactly source "b" fails to decode. -/
def decodeBFails : AudioSource → Bool
  | AudioSource.b => false
  | _ => true

/-- The engine right after a successful `initialize()` from fresh. -/
def postInit : Engine := (engineInit decodeOk freshEngine).1

/-- The engine after `initialize()` then `play()` from fresh. -/
def postPlay : Engine := (play decodeOk postInit).1

/-- The §8 scenario state: fresh engine, `initialize()`, `play()`, then
`togglePedal("od", true, 75)`. -/
def scenarioState : Engine := togglePedal PedalId.od true 75 postPlay

/-- The interleaving of two `initialize()` calls in which the second starts
(runs its synchronous prefix) while the first is suspended on its loads, and
each then finishes in order.  This is a schedule the JS event loop permits,
since `isInitialized` is only set at the very end of a call. -/
def reentrantInit : Engine :=
  let s1 := initStart freshEngine
  let s2 := initStart s1.1
  let f1 := if s1.2 then initFinish decodeOk s2.1 else (s2.1, none)
  let f2 := if s2.2 then initFinish decodeOk f1.1 else (f1.1, none)
  f2.1

/-- The transport operations quantified over by the single-voice claim. -/
inductive TransportOp
  | opPlay
  | opStop
  | opSwitch (s : AudioSource)

/-- Apply one transport operation, discarding the thrown error if any. -/
def applyOp (decode : AudioSource → Bool) (e : Engine) :
    TransportOp → Engine
  | TransportOp.opPlay => (play decode e).1
  | TransportOp.opStop => stop e
  | TransportOp.opSwitch s => (switchSource decode s e).1

/-- Run a sequence of transport operations from a given engine state. -/
def runOps (decode : AudioSource → Bool) (ops : List TransportOp)
    (e : Engine) : Engine :=
  ops.foldl (applyOp decode) e

/-- The inductive invariant behind the single-voice property: the number of
started-and-not-stopped buffer-source nodes is 1 exactly when the engine's
node reference is live, and 0 otherwise. -/
def VoiceInv (e : Engine) : Prop :=
  e.liveVoices = if e.sourceNode = some VoiceStatus.live then 1 else 0

/-- `makeDistortionCurve` (source lines 824-844): entry `i` of the
44100-entry transfer table, where entry `i` encodes the input amplitude
`x = i * 2 / 44100 - 1`.  The `"od"` branch is the soft curve
`((3 + 10 a) * x * 20 * deg) / (π + 10 a * |x|)` with `deg = π / 180`; the
`"ds"` branch is the hard curve `((1 + k) * x) / (1 + k * |x|)` with
`k = 50 a + 1`.  JS double arithmetic is modelled over the reals. -/
noncomputable def makeDistortionCurve (amount : ℝ) (ty : DistType)
    (i : ℕ) : ℝ :=
  let deg : ℝ := Real.pi / 180
  let x : ℝ := (i : ℝ) * 2 / 44100 - 1
  match ty with
  | DistType.od =>
      ((3 + amount * 10) * x * 20 * deg) / (Real.pi + amount * 10 * |x|)
  | DistType.ds =>
      let k : ℝ := amount * 50 + 1
      ((1 + k) * x) / (1 + k * |x|)

/-! ### Theorems for the claims -/

/-- C10: `updatePedalAmount` with `enabled = false` is a complete no-op on
the engine: the state (every gain, compressor parameter, LFO rate, delay
time and installed wave-shaper curve) is returned unchanged.  The new amount
only takes effect through a later `togglePedal`/`updatePedalAmount` call
with `enabled = true`. -/
theorem C10_update_disabled_noop (e : Engine) (id : PedalId) (a : ℚ) :
    updatePedalAmount id a false e = e := by
  unfold updatePedalAmount
  cases hn : e.nodes <;> cases hc : e.hasContext <;> simp

/-- C1 counterexample: in the §8 scenario (fresh engine, `initialize()`,
`play()`, `togglePedal("od", true, 75)`) the Overdrive wave-shaper still
holds the curve installed by `buildEffectChain`, with intensity 0.3 — not a
regenerated curve with intensity 0.45, because `togglePedal`'s `"od"` case
sets only the two gains and never touches `odShaper.curve`. -/
theorem C1_counterexample :
    scenarioState.nodes.map (fun n => n.odShaperCurve) =
      some (0.3, DistType.od) ∧
    (0.3 : ℚ) ≠ 0.45 := by
  exact ⟨rfl, by norm_num⟩

/-- C1 (amended): after fresh engine → `initialize()` → `play()` →
`togglePedal("od", true, 75)`, the Overdrive wet gain is 0.75 and the dry
gain is 0.625, but the wave-shaper curve is unchanged from initialization
(soft curve, intensity 0.3); the 0.45-intensity soft curve is installed only
by `updatePedalAmount("od", 75, true)`. -/
theorem C1_scenario_overdrive :
    scenarioState.nodes.map (fun n => n.odMix) = some 0.75 ∧
    scenarioState.nodes.map (fun n => n.odDry) = some 0.625 ∧
    scenarioState.nodes.map (fun n => n.odShaperCurve) =
      some (0.3, DistType.od) ∧
    (updatePedalAmount PedalId.od 75 true scenarioState).nodes.map
      (fun n => n.odShaperCurve) = some (0.45, DistType.od) := by
  refine ⟨?_, ?_, rfl, ?_⟩
  · have h : scenarioState.nodes.map (fun n => n.odMix) = some (75 / 100) :=
      rfl
    rw [h]
    norm_num
  · have h : scenarioState.nodes.map (fun n => n.odDry) =
        some (1 - 75 / 100 * 0.5) := rfl
    rw [h]
    norm_num
  · have h : (updatePedalAmount PedalId.od 75 true scenarioState).nodes.map
        (fun n => n.odShaperCurve) = some (75 / 100 * 0.6, DistType.od) := rfl
    rw [h]
    simp only [Option.some.injEq, Prod.mk.injEq]
    norm_num

/-- C2 counterexample: `updatePedalAmount("cmp", 100, true)` does not set the
compressor gains at all (its `"cmp"` case only writes threshold and ratio):
after it, on a freshly initialized engine the compressor wet gain is still 0,
while the §4.3 table demands wet gain 1. -/
theorem C2_counterexample :
    (updatePedalAmount PedalId.cmp 100 true postInit).nodes.map
      (wetGain PedalId.cmp) = some 0 ∧
    specEnabledWet PedalId.cmp 100 = 1 ∧
    (0 : ℚ) ≠ 1 := by
  exact ⟨rfl, rfl, by norm_num⟩

/-- C2 (amended): for every stage and every amount in [0,100] (with the dry
gains of chorus/delay/reverb at their permanent value 1), `togglePedal` with
`enabled = true` sets the wet and dry gains to the §4.3 table values, and
`updatePedalAmount` while enabled does so for overdrive, distortion, chorus,
delay and reverb; for the compressor, `updatePedalAmount` leaves the wet and
dry gains unchanged (it sets only threshold and ratio).  Disabling via
`togglePedal` forces wet gain 0 for every stage (and delay feedback 0), with
dry gain back at 1 for every stage (written for compressor / overdrive /
distortion, untouched-at-1 for chorus / delay / reverb). -/
theorem C2_gain_table (n : EffectNodes) (id : PedalId) (a : ℚ)
    (h0 : 0 ≤ a) (h1 : a ≤ 100)
    (hch : n.chorusDry = 1) (hdl : n.delayDry = 1) (hrv : n.reverbDry = 1) :
    wetGain id (togglePedalNodes id true a n) = specEnabledWet id a ∧
    dryGain id (togglePedalNodes id true a n) = specEnabledDry id a ∧
    (togglePedalNodes PedalId.dl true a n).delayFeedback = a / 100 * 0.4 ∧
    wetGain id (togglePedalNodes id false a n) = 0 ∧
    dryGain id (togglePedalNodes id false a n) = 1 ∧
    (togglePedalNodes PedalId.dl false a n).delayFeedback = 0 ∧
    (id ≠ PedalId.cmp →
      wetGain id (updatePedalAmountNodes id a n) = specEnabledWet id a ∧
      dryGain id (updatePedalAmountNodes id a n) = specEnabledDry id a) ∧
    wetGain PedalId.cmp (updatePedalAmountNodes PedalId.cmp a n) =
      wetGain PedalId.cmp n ∧
    dryGain PedalId.cmp (updatePedalAmountNodes PedalId.cmp a n) =
      dryGain PedalId.cmp n := by
  cases id <;>
    simp [togglePedalNodes, updatePedalAmountNodes, wetGain, dryGain,
      specEnabledWet, specEnabledDry, hch, hdl, hrv] <;>
    ring

/-- Witness for C2_gain_table at `n = initialEffectNodes`, `id = od`,
`a = 50`. -/
theorem C2_gain_table_witness :
    (0 : ℚ) ≤ 50 ∧ (50 : ℚ) ≤ 100 ∧
    (wetGain PedalId.od (togglePedalNodes PedalId.od true 50
        initialEffectNodes) = specEnabledWet PedalId.od 50 ∧
     dryGain PedalId.od (togglePedalNodes PedalId.od true 50
        initialEffectNodes) = specEnabledDry PedalId.od 50 ∧
     (togglePedalNodes PedalId.dl true 50
        initialEffectNodes).delayFeedback = 50 / 100 * 0.4 ∧
     wetGain PedalId.od (togglePedalNodes PedalId.od false 50
        initialEffectNodes) = 0 ∧
     dryGain PedalId.od (togglePedalNodes PedalId.od false 50
        initialEffectNodes) = 1 ∧
     (togglePedalNodes PedalId.dl false 50
        initialEffectNodes).delayFeedback = 0 ∧
     (PedalId.od ≠ PedalId.cmp →
       wetGain PedalId.od (updatePedalAmountNodes PedalId.od 50
          initialEffectNodes) = specEnabledWet PedalId.od 50 ∧
       dryGain PedalId.od (updatePedalAmountNodes PedalId.od 50
          initialEffectNodes) = specEnabledDry PedalId.od 50) ∧
     wetGain PedalId.cmp (updatePedalAmountNodes PedalId.cmp 50
        initialEffectNodes) = wetGain PedalId.cmp initialEffectNodes ∧
     dryGain PedalId.cmp (updatePedalAmountNodes PedalId.cmp 50
        initialEffectNodes) = dryGain PedalId.cmp initialEffectNodes) :=
  ⟨by decide, by decide,
   C2_gain_table initialEffectNodes PedalId.od 50 (by decide) (by decide)
     rfl rfl rfl⟩

/-- C3 counterexample: `togglePedal("od", true, 200)` on an initialized
engine is neither rejected (the state mutates: the Overdrive wet gain moves
from 0 to 2) nor clamped (2 is outside [0,1], the gain range the table
yields for amounts in [0,100]). -/
theorem C3_counterexample :
    postInit.nodes.map (fun n => n.odMix) = some 0 ∧
    (togglePedal PedalId.od true 200 postInit).nodes.map
      (fun n => n.odMix) = some 2 ∧
    ¬ ((2 : ℚ) ≤ 1) := by
  refine ⟨rfl, ?_, by norm_num⟩
  have h : (togglePedal PedalId.od true 200 postInit).nodes.map
      (fun n => n.odMix) = some (200 / 100) := rfl
  rw [h]
  norm_num

/-- C3 (amended): neither `togglePedal` nor `updatePedalAmount` validates or
clamps `amount`: on any engine with nodes present, any amount whatsoever is
normalized as `amount / 100` and written directly into the DSP parameters
(shown here on the Overdrive wet gain). -/
theorem C3_no_validation (e : Engine) (n : EffectNodes) (a : ℚ)
    (hn : e.nodes = some n) (hc : e.hasContext = true) :
    (togglePedal PedalId.od true a e).nodes.map (fun m => m.odMix) =
      some (a / 100) ∧
    (updatePedalAmount PedalId.od a true e).nodes.map (fun m => m.odMix) =
      some (a / 100) := by
  constructor
  · simp [togglePedal, hn, hc, togglePedalNodes]
  · simp [updatePedalAmount, hn, hc, updatePedalAmountNodes]

/-- Witness for C3_no_validation at the freshly initialized engine with the
out-of-range amount 200. -/
theorem C3_no_validation_witness :
    postInit.nodes = some initialEffectNodes ∧
    postInit.hasContext = true ∧
    ((togglePedal PedalId.od true 200 postInit).nodes.map
        (fun m => m.odMix) = some (200 / 100) ∧
     (updatePedalAmount PedalId.od 200 true postInit).nodes.map
        (fun m => m.odMix) = some (200 / 100)) :=
  ⟨rfl, rfl, C3_no_validation postInit initialEffectNodes 200 rfl rfl⟩

/-- C4 counterexample: with source "b" failing to decode while the current
source "a" decodes fine, `initialize()` from fresh rethrows the decode error
to the caller and leaves the engine uninitialized — the per-source failure is
not isolated even though the current source's buffer was loaded. -/
theorem C4_counterexample :
    decodeBFails AudioSource.a = true ∧
    freshEngine.currentSource = AudioSource.a ∧
    (engineInit decodeBFails freshEngine).2 = some EngineError.decodeError ∧
    (engineInit decodeBFails freshEngine).1.isInitialized = false ∧
    (engineInit decodeBFails freshEngine).1.buffers AudioSource.a = true := by
  exact ⟨rfl, rfl, rfl, rfl, rfl⟩

/-- C4 (amended): `loadAudioBuffer` rethrows after logging, and the loads are
combined with `Promise.all`, so `initialize()` from a fresh engine succeeds
precisely when all three sources decode — a decode failure of any source,
current or not, aborts initialization and surfaces to the caller. -/
theorem C4_any_decode_failure_aborts (decode : AudioSource → Bool) :
    (engineInit decode freshEngine).2 = none ↔
      (decode AudioSource.a = true ∧ decode AudioSource.b = true ∧
       decode AudioSource.c = true) := by
  cases ha : decode AudioSource.a <;> cases hb : decode AudioSource.b <;>
    cases hc : decode AudioSource.c <;>
    simp [engineInit, initStart, initFinish, loadAudioBuffer,
      buildEffectChain, freshEngine, ha, hb, hc]

/-- C5 counterexample: `isInitialized` is only set at the very end of
`initialize()`, so a second call entering while the first is suspended on
its loads passes the guard too: after both calls finish, the effect chain
has been built twice and each source loaded twice. -/
theorem C5_counterexample :
    reentrantInit.graphsBuilt = 2 ∧
    reentrantInit.loads AudioSource.a = 2 ∧
    (2 : ℕ) ≠ 1 := by
  exact ⟨rfl, rfl, by norm_num⟩

/-- C5 (amended): `initialize()` is idempotent sequentially: on any engine
whose initialization has completed it is a no-op, and from a fresh engine a
completed call builds exactly one graph and loads each source exactly once,
after which a repeated call changes nothing.  (A call entering while another
is still in flight is not guarded; see the counterexample.) -/
theorem C5_sequential_idempotent (decode : AudioSource → Bool) (e : Engine)
    (h : e.isInitialized = true) :
    engineInit decode e = (e, none) ∧
    (engineInit decodeOk freshEngine).1.graphsBuilt = 1 ∧
    (∀ s, (engineInit decodeOk freshEngine).1.loads s = 1) ∧
    engineInit decodeOk (engineInit decodeOk freshEngine).1 =
      ((engineInit decodeOk freshEngine).1, none) := by
  refine ⟨?_, by decide, by decide, rfl⟩
  simp [engineInit, initStart, h]

/-- Witness for C5_sequential_idempotent at the engine produced by a first
completed `initialize()`. -/
theorem C5_sequential_idempotent_witness :
    postInit.isInitialized = true ∧
    (engineInit decodeOk postInit = (postInit, none) ∧
     (engineInit decodeOk freshEngine).1.graphsBuilt = 1 ∧
     (∀ s, (engineInit decodeOk freshEngine).1.loads s = 1) ∧
     engineInit decodeOk (engineInit decodeOk freshEngine).1 =
       ((engineInit decodeOk freshEngine).1, none)) :=
  ⟨rfl, C5_sequential_idempotent decodeOk postInit rfl⟩

/-- C6 counterexample: `togglePedal` called on a fresh (uninitialized) engine
does not trigger `initialize()`: it returns the state unchanged, with no
graph built and `isInitialized` still false. -/
theorem C6_counterexample :
    togglePedal PedalId.od true 50 freshEngine = freshEngine ∧
    freshEngine.isInitialized = false ∧
    freshEngine.graphsBuilt = 0 := by
  exact ⟨rfl, rfl, rfl⟩

/-- C6 (amended): before initialization, only `play()` implicitly triggers
`initialize()` (reaching the ready, playing state when all sources decode);
`togglePedal`, `updatePedalAmount` and `stop` are silent no-ops on an
uninitialized engine, and `switchSource` merely records the new current
source without initializing or playing. -/
theorem C6_only_play_initializes (decode : AudioSource → Bool) (e : Engine)
    (h1 : e.isInitialized = false) (h2 : e.nodes = none)
    (h3 : e.sourceNode = none) (h4 : e.isPlaying = false)
    (hdec : ∀ s, decode s = true) :
    (∀ id en a, togglePedal id en a e = e) ∧
    (∀ id a en, updatePedalAmount id a en e = e) ∧
    stop e = e ∧
    (∀ s, switchSource decode s e = ({ e with currentSource := s }, none)) ∧
    (play decode e).1.isInitialized = true ∧
    (play decode e).1.isPlaying = true := by
  refine ⟨?_, ?_, ?_, ?_, ?_⟩
  · intro id en a
    simp [togglePedal, h2]
  · intro id a en
    simp [updatePedalAmount, h2]
  · simp [stop, h3]
  · intro s
    by_cases hs : s = e.currentSource
    · subst hs
      simp [switchSource]
    · simp [switchSource, hs, stop, h3, h4]
  · cases hcs : e.currentSource <;>
      constructor <;>
      simp [play, engineInit, initStart, initFinish, loadAudioBuffer,
        buildEffectChain, startVoice, stopCurrentNode, Function.update,
        h1, h2, h3, h4, hcs, hdec]

/-- Witness for C6_only_play_initializes at the fresh engine with the
all-success decode oracle. -/
theorem C6_only_play_initializes_witness :
    freshEngine.isInitialized = false ∧
    freshEngine.nodes = none ∧
    freshEngine.sourceNode = none ∧
    freshEngine.isPlaying = false ∧
    (∀ s, decodeOk s = true) ∧
    ((∀ id en a, togglePedal id en a freshEngine = freshEngine) ∧
     (∀ id a en, updatePedalAmount id a en freshEngine = freshEngine) ∧
     stop freshEngine = freshEngine ∧
     (∀ s, switchSource decodeOk s freshEngine =
        ({ freshEngine with currentSource := s }, none)) ∧
     (play decodeOk freshEngine).1.isInitialized = true ∧
     (play decodeOk freshEngine).1.isPlaying = true) :=
  ⟨rfl, rfl, rfl, rfl, by decide,
   C6_only_play_initializes decodeOk freshEngine rfl rfl rfl rfl
     (by decide)⟩

/-- C7: round-trip source switch.  On an initialized engine playing source
"a" with one live voice and all buffers cached, `switchSource("b")` followed
by `switchSource("a")` leaves the engine playing source "a" with exactly one
live voice and no error; and `switchSource` with the already-current id is a
no-op. -/
theorem C7_round_trip (decode : AudioSource → Bool) (e : Engine)
    (hinit : e.isInitialized = true) (hctx : e.hasContext = true)
    (hnodes : e.nodes ≠ none) (hbuf : ∀ s, e.buffers s = true)
    (hplay : e.isPlaying = true)
    (hnode : e.sourceNode = some VoiceStatus.live)
    (hlive : e.liveVoices = 1) (hcur : e.currentSource = AudioSource.a) :
    ((switchSource decode AudioSource.a
        (switchSource decode AudioSource.b e).1).1.isPlaying = true ∧
     (switchSource decode AudioSource.a
        (switchSource decode AudioSource.b e).1).1.currentSource =
          AudioSource.a ∧
     (switchSource decode AudioSource.a
        (switchSource decode AudioSource.b e).1).1.liveVoices = 1 ∧
     (switchSource decode AudioSource.a
        (switchSource decode AudioSource.b e).1).2 = none) ∧
    switchSource decode AudioSource.a e = (e, none) := by
  have h1 : switchSource decode AudioSource.b e =
      ({ e with currentSource := AudioSource.b,
                sourceNode := some VoiceStatus.live,
                liveVoices := 1, isPlaying := true }, none) := by
    simp [switchSource, hcur, hplay, stop, hnode, stopCurrentNode, hlive,
      play, hinit, hctx, hnodes, startVoice, hbuf]
  have h2 : switchSource decode AudioSource.a
      ({ e with currentSource := AudioSource.b,
                sourceNode := some VoiceStatus.live,
                liveVoices := 1, isPlaying := true }) =
      ({ e with currentSource := AudioSource.a,
                sourceNode := some VoiceStatus.live,
                liveVoices := 1, isPlaying := true }, none) := by
    simp [switchSource, stop, stopCurrentNode, play, hinit, hctx, hnodes,
      startVoice, hbuf]
  rw [h1]
  refine ⟨?_, ?_⟩
  · rw [h2]
    exact ⟨rfl, rfl, rfl, rfl⟩
  · rw [show AudioSource.a = e.currentSource from hcur.symm]
    simp [switchSource]

/-- Witness for C7_round_trip at the state reached by `initialize()` then
`play()` from fresh. -/
theorem C7_round_trip_witness :
    postPlay.isInitialized = true ∧
    postPlay.hasContext = true ∧
    postPlay.nodes ≠ none ∧
    (∀ s, postPlay.buffers s = true) ∧
    postPlay.isPlaying = true ∧
    postPlay.sourceNode = some VoiceStatus.live ∧
    postPlay.liveVoices = 1 ∧
    postPlay.currentSource = AudioSource.a ∧
    (((switchSource decodeOk AudioSource.a
        (switchSource decodeOk AudioSource.b postPlay).1).1.isPlaying = true ∧
      (switchSource decodeOk AudioSource.a
        (switchSource decodeOk AudioSource.b postPlay).1).1.currentSource =
          AudioSource.a ∧
      (switchSource decodeOk AudioSource.a
        (switchSource decodeOk AudioSource.b postPlay).1).1.liveVoices = 1 ∧
      (switchSource decodeOk AudioSource.a
        (switchSource decodeOk AudioSource.b postPlay).1).2 = none) ∧
     switchSource decodeOk AudioSource.a postPlay = (postPlay, none)) :=
  ⟨rfl, rfl, by decide, by decide, rfl, rfl, rfl, rfl,
   C7_round_trip decodeOk postPlay rfl rfl (by decide) (by decide) rfl rfl
     rfl rfl⟩

/-! ### The single-voice invariant (C9) -/

theorem loadAudioBuffer_voice (decode : AudioSource → Bool) (s : AudioSource)
    (e : Engine) :
    (loadAudioBuffer decode s e).1.sourceNode = e.sourceNode ∧
    (loadAudioBuffer decode s e).1.liveVoices = e.liveVoices ∧
    (loadAudioBuffer decode s e).1.isPlaying = e.isPlaying := by
  unfold loadAudioBuffer
  split_ifs <;> simp

theorem initFinish_voice (decode : AudioSource → Bool) (e : Engine) :
    (initFinish decode e).1.sourceNode = e.sourceNode ∧
    (initFinish decode e).1.liveVoices = e.liveVoices ∧
    (initFinish decode e).1.isPlaying = e.isPlaying := by
  obtain ⟨a1, a2, a3⟩ := loadAudioBuffer_voice decode AudioSource.a e
  obtain ⟨b1, b2, b3⟩ := loadAudioBuffer_voice decode AudioSource.b
    (loadAudioBuffer decode AudioSource.a e).1
  obtain ⟨c1, c2, c3⟩ := loadAudioBuffer_voice decode AudioSource.c
    (loadAudioBuffer decode AudioSource.b
      (loadAudioBuffer decode AudioSource.a e).1).1
  simp only [initFinish, buildEffectChain]
  split <;>
    first
      | (split_ifs <;> simp_all)
      | simp_all

theorem engineInit_voice (decode : AudioSource → Bool) (e : Engine) :
    (engineInit decode e).1.sourceNode = e.sourceNode ∧
    (engineInit decode e).1.liveVoices = e.liveVoices ∧
    (engineInit decode e).1.isPlaying = e.isPlaying := by
  obtain ⟨f1, f2, f3⟩ := initFinish_voice decode { e with hasContext := true }
  unfold engineInit initStart
  split_ifs with h <;> simp_all

theorem stopCurrentNode_inv (e : Engine) (h : VoiceInv e) :
    (stopCurrentNode e).liveVoices = 0 ∧
    (stopCurrentNode e).sourceNode ≠ some VoiceStatus.live := by
  unfold VoiceInv at h
  unfold stopCurrentNode
  rcases hs : e.sourceNode with _ | st
  · rw [hs] at h
    simp at h
    simp [hs, h]
  · cases st
    · rw [hs] at h
      simp at h
      simp [hs, h]
    · rw [hs] at h
      simp at h
      simp [hs, h]

theorem startVoice_inv (e : Engine) (h : VoiceInv e) :
    VoiceInv (startVoice e).1 := by
  obtain ⟨h0, hne⟩ := stopCurrentNode_inv e h
  by_cases hb :
      (stopCurrentNode e).buffers (stopCurrentNode e).currentSource = true
  · simp [VoiceInv, startVoice, hb, h0]
  · simp [VoiceInv, startVoice, hb, h0, hne]

theorem play_inv (decode : AudioSource → Bool) (e : Engine)
    (h : VoiceInv e) : VoiceInv (play decode e).1 := by
  obtain ⟨g1, g2, g3⟩ := engineInit_voice decode e
  have hge : VoiceInv (engineInit decode e).1 := by
    unfold VoiceInv
    rw [g1, g2]
    exact h
  unfold play
  cases hi : e.isInitialized with
  | true =>
      by_cases hc : e.hasContext = false ∨ e.nodes = none
      · simp [hi, hc]
        exact h
      · by_cases hp : e.isPlaying = true ∧ e.sourceNode ≠ none
        · simp [hi, hc, hp]
          exact h
        · simp [hi, hc, hp]
          exact startVoice_inv e h
  | false =>
      rcases hr2 : (engineInit decode e).2 with _ | err
      · by_cases hc : (engineInit decode e).1.hasContext = false ∨
            (engineInit decode e).1.nodes = none
        · simp [hi, hr2, hc]
          exact hge
        · by_cases hp : (engineInit decode e).1.isPlaying = true ∧
              (engineInit decode e).1.sourceNode ≠ none
          · simp [hi, hr2, hc, hp]
            exact hge
          · simp [hi, hr2, hc, hp]
            exact startVoice_inv _ hge
      · simp [hi, hr2]
        exact hge

theorem stop_inv (e : Engine) (h : VoiceInv e) : VoiceInv (stop e) := by
  obtain ⟨h0, hne⟩ := stopCurrentNode_inv e h
  unfold stop
  rcases hs : e.sourceNode with _ | st
  · exact h
  · unfold VoiceInv
    simp [h0]

theorem switchSource_inv (decode : AudioSource → Bool) (s : AudioSource)
    (e : Engine) (h : VoiceInv e) : VoiceInv (switchSource decode s e).1 := by
  have h1 : VoiceInv { e with currentSource := s } := h
  have h2 := stop_inv { e with currentSource := s } h1
  by_cases hs : s = e.currentSource
  · have heq : switchSource decode s e = (e, none) := by
      simp [switchSource, hs]
    rw [heq]
    exact h
  · by_cases hw : e.isPlaying = true
    · have heq : switchSource decode s e =
          play decode (stop { e with currentSource := s }) := by
        simp [switchSource, hs, hw]
      rw [heq]
      exact play_inv decode _ h2
    · have heq : switchSource decode s e =
          (stop { e with currentSource := s }, none) := by
        simp [switchSource, hs, hw]
      rw [heq]
      exact h2

theorem applyOp_inv (decode : AudioSource → Bool) (e : Engine)
    (op : TransportOp) (h : VoiceInv e) : VoiceInv (applyOp decode e op) := by
  cases op with
  | opPlay => exact play_inv decode e h
  | opStop => exact stop_inv e h
  | opSwitch s => exact switchSource_inv decode s e h

theorem runOps_inv (decode : AudioSource → Bool) (ops : List TransportOp)
    (e : Engine) (h : VoiceInv e) : VoiceInv (runOps decode ops e) := by
  induction ops generalizing e with
  | nil => exact h
  | cons op rest ih => exact ih (applyOp decode e op) (applyOp_inv decode e op h)

/-- C9: single-voice invariant.  Along every sequence of `play`, `stop` and
`switchSource` calls from a fresh engine (under any decode oracle), at most
one buffer-source node is live at every point: any existing voice is stopped
before a new one is started, and `play` while already playing starts no
second voice. -/
theorem C9_single_voice (decode : AudioSource → Bool)
    (ops : List TransportOp) :
    (runOps decode ops freshEngine).liveVoices ≤ 1 := by
  have h0 : VoiceInv freshEngine := by
    unfold VoiceInv freshEngine
    simp
  have h := runOps_inv decode ops freshEngine h0
  unfold VoiceInv at h
  rw [h]
  split <;> norm_num

/-! ### The distortion-curve synthesizer (C8) -/

theorem softCurve_entry_zero :
    makeDistortionCurve 0 DistType.od 0 = -(1 / 3) := by
  have hπ : Real.pi ≠ 0 := Real.pi_ne_zero
  simp only [makeDistortionCurve]
  norm_num
  field_simp
  ring

theorem softCurve_center :
    makeDistortionCurve 0 DistType.od 22050 = 0 := by
  simp only [makeDistortionCurve]
  norm_num

theorem hardCurve_monotone (i j : ℕ) (hi : 22050 ≤ i) (hij : i ≤ j)
    (hj : j < 44100) :
    makeDistortionCurve 1 DistType.ds i ≤
      makeDistortionCurve 1 DistType.ds j := by
  have hi2 : (22050 : ℝ) ≤ (i : ℝ) := by exact_mod_cast hi
  have hij2 : (i : ℝ) ≤ (j : ℝ) := by exact_mod_cast hij
  have hxi : (0 : ℝ) ≤ (i : ℝ) * 2 / 44100 - 1 := by
    rw [sub_nonneg, le_div_iff₀ (by norm_num : (0 : ℝ) < 44100)]
    linarith
  have hxj : (i : ℝ) * 2 / 44100 - 1 ≤ (j : ℝ) * 2 / 44100 - 1 := by
    gcongr
  have hxj0 : (0 : ℝ) ≤ (j : ℝ) * 2 / 44100 - 1 := hxi.trans hxj
  simp only [makeDistortionCurve]
  rw [abs_of_nonneg hxi, abs_of_nonneg hxj0]
  norm_num
  rw [div_le_div_iff₀ (by nlinarith) (by nlinarith)]
  nlinarith

/-- C8 counterexample: the first table entry of the soft curve at intensity
0 is -1/3, not approximately 0: index 0 encodes the input x = -1, where the
soft formula yields (3 · (-1) · 20 · π/180) / π = -1/3, whose magnitude is
far above any reasonable tolerance (shown here against 1/100). -/
theorem C8_counterexample :
    makeDistortionCurve 0 DistType.od 0 = -(1 / 3) ∧
    ¬ (|makeDistortionCurve 0 DistType.od 0| ≤ 1 / 100) := by
  refine ⟨softCurve_entry_zero, ?_⟩
  rw [softCurve_entry_zero, abs_neg, abs_of_nonneg (by norm_num)]
  norm_num

/-- C8 (amended): the soft curve at intensity 0 is 0 at the centre entry
22050 — the entry that encodes input x = 0 — (not at index 0, which encodes
x = -1), and the hard curve at intensity 1 is non-decreasing over the
entries encoding the input range [0,1], i.e. indices 22050 ≤ i ≤ j < 44100
of the 44100-entry table with entry i encoding x = 2·i/44100 − 1. -/
theorem C8_curve_props :
    makeDistortionCurve 0 DistType.od 22050 = 0 ∧
    ∀ i j : ℕ, 22050 ≤ i → i ≤ j → j < 44100 →
      makeDistortionCurve 1 DistType.ds i ≤
        makeDistortionCurve 1 DistType.ds j :=
  ⟨softCurve_center, fun i j hi hij hj => hardCurve_monotone i j hi hij hj⟩

/-- Witness for C8_curve_props at the index pair (22050, 44099). -/
theorem C8_curve_props_witness :
    (22050 : ℕ) ≤ 22050 ∧ (22050 : ℕ) ≤ 44099 ∧ (44099 : ℕ) < 44100 ∧
    makeDistortionCurve 1 DistType.ds 22050 ≤
      makeDistortionCurve 1 DistType.ds 44099 :=
  ⟨by decide, by decide, by decide,
   C8_curve_props.2 22050 44099 (by decide) (by decide) (by decide)⟩

end Pedalboard
